import Mathlib

/-!
Verification of the authentication / token-lifecycle subsystem of the
nps-mcp-server repository (TypeScript), shallowly embedded in Lean 4.

The embedding mirrors:
  * the auth module (parseJwt / parseJwtExp / hasAdminRoleClaim /
    npsRequestWithRetry / promptMfaCode / signinBody / signin2fa /
    the four authenticate strategies / refreshToken / authenticate /
    getToken / clearToken),
  * the configuration module (detectAuthStrategy / loadConfig), and
  * the API client (npsApi / NpsApiError).

Modelling conventions:
  * JavaScript runtime values produced by JSON.parse are modelled by the
    inductive type Json below, with numbers as Int (the repository only
    inspects integral claims such as exp; floating point is out of scope).
  * The platform builtins JSON.parse and Buffer.from(s, "base64url") are
    not repository code; their composition is abstracted as a function
    parameter dec : String -> Option Json (none = the builtin threw), and
    plain JSON.parse as jparse.  All theorems quantify over these.
  * Effects (fetch, waits, the TTY prompt, the module-level tokenState
    variable) are made explicit: every stateful operation is a function
    St -> Except e A x St, where St carries the cached token state, the
    number of network requests issued so far, and a chronological trace
    of observable events (network calls with their bearer tokens,
    backoff waits, TTY prompts, cache invalidations).  The world (the
    responses the server would give, the TTY line, Date.now()) is a
    read-only parameter.
  * stderr logging in the source has no observable effect on any claim
    and is not modelled.
-/

set_option autoImplicit false

namespace Nps

/-- JavaScript values as produced by JSON.parse (numbers restricted to Int). -/
inductive Json where
  | null
  | bool (b : Bool)
  | num (n : Int)
  | str (s : String)
  | arr (elems : List Json)
  | obj (fields : List (String × Json))

/-- JavaScript truthiness of a parsed JSON value (arrays and objects are
always truthy; 0, "", false, null are falsy). -/
def Json.truthy : Json → Bool
  | .null => false
  | .bool b => b
  | .num n => n != 0
  | .str s => s != ""
  | .arr _ => true
  | .obj _ => true

/-- JavaScript property access v[k] on a parsed JSON value: a field lookup on
objects, undefined (none) on every other value. -/
def Json.getField : Json → String → Option Json
  | .obj fields, k => fields.lookup k
  | _, _ => none

/-- The regex replace(/^"|"$/g, "") applied by the auth module to every token
body: remove one leading double quote if present, then one trailing double
quote if still present. -/
def stripQuotesChars (cs : List Char) : List Char :=
  let cs1 := match cs with
    | [] => []
    | c :: rest => if c = '"' then rest else c :: rest
  match cs1.getLast? with
  | some c => if c = '"' then cs1.dropLast else cs1
  | none => cs1

/-- token.replace(/^"|"$/g, "") on Lean strings. -/
def stripTokenQuotes (s : String) : String :=
  String.mk (stripQuotesChars s.data)

/-- JavaScript a || b for an optional string a (undefined and "" are falsy). -/
def jsOr (a : Option String) (b : String) : String :=
  match a with
  | none => b
  | some s => if s = "" then b else s

-- ─── JWT helpers (auth module) ──────────────────────────────────────────────

/-- JavaScript String.prototype.split(".") on a character list: split at every
dot, keeping empty segments (executable by structural recursion). -/
def splitDot : List Char → List (List Char)
  | [] => [[]]
  | c :: rest =>
    let r := splitDot rest
    if c = '.' then [] :: r
    else
      match r with
      | [] => [[c]]
      | h :: t => (c :: h) :: t

/-- parseJwt: split the token on ".", take segment 1, base64url-decode and
JSON.parse it (the decoding composite is the abstract parameter dec); any
exception — including an absent segment — yields null (none). -/
def parseJwt (dec : String → Option Json) (token : String) : Option Json :=
  match (splitDot token.data).get? 1 with
  | none => none
  | some seg => dec (String.mk seg)

/-- parseJwtExp: exp claim × 1000 when the payload is truthy and exp is a
number, undefined otherwise. -/
def parseJwtExp (dec : String → Option Json) (token : String) : Option Int :=
  match parseJwt dec token with
  | none => none
  | some payload =>
    if payload.truthy then
      match payload.getField "exp" with
      | some (Json.num n) => some (n * 1000)
      | _ => none
    else none

/-- The Microsoft role claim URI used by NPS. -/
def roleUri : String := "http://schemas.microsoft.com/ws/2008/06/identity/claims/role"

/-- JavaScript String.prototype.toLowerCase restricted to ASCII (the only
case the role-claim comparison exercises), executable by structural
recursion over the character list. -/
def jsToLowerCase (s : String) : String :=
  String.mk (s.data.map Char.toLower)

/-- The inner isAdmin predicate of hasAdminRoleClaim: a string equal,
lowercased, to "administrator" or "admin". -/
def isAdminJson : Json → Bool
  | .str s => jsToLowerCase s == "administrator" || jsToLowerCase s == "admin"
  | _ => false

/-- hasAdminRoleClaim: decode the token, return false on a falsy payload or a
falsy/absent role claim, otherwise test the claim (or, for an array, any
element) with isAdmin. -/
def hasAdminRoleClaim (dec : String → Option Json) (token : String) : Bool :=
  match parseJwt dec token with
  | none => false
  | some payload =>
    if !payload.truthy then false
    else
      match payload.getField roleUri with
      | none => false
      | some roleClaim =>
        if !roleClaim.truthy then false
        else
          match roleClaim with
          | .arr xs => xs.any isAdminJson
          | rc => isAdminJson rc

-- ─── Configuration module ───────────────────────────────────────────────────

/-- The four auth strategies of the configuration module. -/
inductive Strategy where
  | token
  | apikey
  | interactivePrompt
  | interactive
deriving DecidableEq, Repr

/-- The NpsConfig record produced by loadConfig. -/
structure NpsConfig where
  baseUrl : String
  username : String
  password : String
  mfaCode : Option String
  apiKey : Option String
  preSuppliedToken : Option String
  mfaPrompt : Bool
  authStrategy : Strategy
  tlsRejectUnauthorized : Bool
deriving DecidableEq, Repr

/-- The environment variables read by the configuration module, after
loadEnvFile has merged the .env file into process.env (loadEnvFile itself is
file I/O external to the claims; the Env here is the post-merge view).
none = the variable is undefined. -/
structure Env where
  NPS_URL : Option String
  NPS_USERNAME : Option String
  NPS_PASSWORD : Option String
  NPS_API_KEY : Option String
  NPS_TOKEN : Option String
  NPS_MFA_PROMPT : Option String
  NPS_MFA_CODE : Option String
  NPS_TLS_REJECT : Option String
deriving DecidableEq, Repr

/-- JavaScript truthiness of process.env.X (undefined and "" are falsy). -/
def envTruthy : Option String → Bool
  | none => false
  | some s => s != ""

/-- baseUrl.replace(/\/+$/, ""): strip all trailing slashes. -/
def stripTrailingSlashes (s : String) : String :=
  String.mk ((s.data.reverse.dropWhile (fun c => c = '/')).reverse)

/-- The three fatal errors loadConfig can throw.  missingUrl and
missingUsername carry messages naming the respective missing environment
variable (NPS_URL, NPS_USERNAME) with an example value; missingCredentials is
the error whose message enumerates all four strategies with example values. -/
inductive ConfigError where
  | missingUrl
  | missingUsername
  | missingCredentials
deriving DecidableEq, Repr

/-- detectAuthStrategy: NPS_TOKEN > NPS_API_KEY > NPS_MFA_PROMPT+password >
NPS_PASSWORD; the trailing "interactive" is the fallback the source returns
so that the validation in loadConfig below reports the error. -/
def detectAuthStrategy (env : Env) : Strategy :=
  if envTruthy env.NPS_TOKEN then .token
  else if envTruthy env.NPS_API_KEY then .apikey
  else if env.NPS_MFA_PROMPT = some "true" && envTruthy env.NPS_PASSWORD then .interactivePrompt
  else if envTruthy env.NPS_PASSWORD then .interactive
  else .interactive

/-- loadConfig (NODE_TLS_REJECT_UNAUTHORIZED mutation is an env side effect
with no bearing on any claim and is not modelled). -/
def loadConfig (env : Env) : Except ConfigError NpsConfig :=
  if !envTruthy env.NPS_URL then .error .missingUrl
  else
    let authStrategy := detectAuthStrategy env
    let tlsReject := env.NPS_TLS_REJECT = some "true"
    if authStrategy = .token then
      .ok { baseUrl := stripTrailingSlashes (env.NPS_URL.getD "")
            username := jsOr env.NPS_USERNAME ""
            password := ""
            mfaCode := none
            apiKey := none
            preSuppliedToken := env.NPS_TOKEN
            mfaPrompt := false
            authStrategy := authStrategy
            tlsRejectUnauthorized := tlsReject }
    else if !envTruthy env.NPS_USERNAME then .error .missingUsername
    else if !envTruthy env.NPS_API_KEY && !envTruthy env.NPS_PASSWORD
            && !envTruthy env.NPS_TOKEN then .error .missingCredentials
    else
      .ok { baseUrl := stripTrailingSlashes (env.NPS_URL.getD "")
            username := env.NPS_USERNAME.getD ""
            password := env.NPS_PASSWORD.getD ""
            mfaCode := some (jsOr env.NPS_MFA_CODE "000000")
            apiKey := env.NPS_API_KEY
            preSuppliedToken := env.NPS_TOKEN
            mfaPrompt := env.NPS_MFA_PROMPT = some "true"
            authStrategy := authStrategy
            tlsRejectUnauthorized := tlsReject }

-- ─── Effectful auth model: state, world, events ─────────────────────────────

/-- An HTTP response as observed by the auth module (status and body text). -/
structure Resp where
  status : Nat
  body : String
deriving DecidableEq, Repr

/-- Response.ok of the fetch API: status in the range 200-299. -/
def Resp.ok (r : Resp) : Bool := 200 ≤ r.status && r.status ≤ 299

/-- The network endpoints the subsystem talks to. -/
inductive Endpoint where
  | signinBody
  | signin2fa
  | userToken
  | version
  | api (path : String)
deriving DecidableEq, Repr

/-- Observable events, in chronological order: a network request (with the
bearer token it carried, if any), a backoff wait in milliseconds, a TTY MFA
prompt, and a clearToken cache invalidation.  The trace is observation-only
instrumentation of the embedding. -/
inductive Ev where
  | call (e : Endpoint) (bearer : Option String)
  | wait (ms : Nat)
  | prompt
  | cleared
deriving DecidableEq, Repr

/-- The module-level TokenState of the auth module. -/
structure TokenState where
  token : String
  acquiredAt : Int
  expiresAt : Option Int
deriving DecidableEq, Repr

/-- The mutable state threaded through the subsystem: the event trace, the
count of network requests issued so far (indexing into the response
stream), and the cached TokenState. -/
structure St where
  trace : List Ev
  nCalls : Nat
  tokenState : Option TokenState
deriving DecidableEq, Repr

/-- The read-only world: net n is the response the server gives to the n-th
network request of the run; tty is the line the terminal would deliver to the
MFA prompt (none = the TTY cannot be opened/read); dec abstracts
JSON.parse ∘ base64url-decode for JWT payload segments; jparse abstracts plain
JSON.parse on response bodies; now is Date.now() in milliseconds. -/
structure World where
  net : Nat → Resp
  tty : Option String
  dec : String → Option Json
  jparse : String → Option Json
  now : Int

/-- Issue one network request (npsRequest: the fetch itself; headers carry the
optional bearer token). -/
def doCall (w : World) (e : Endpoint) (b : Option String) (st : St) : Resp × St :=
  (w.net st.nCalls,
   { st with trace := st.trace ++ [Ev.call e b], nCalls := st.nCalls + 1 })

/-- Record a backoff wait. -/
def recordWait (ms : Nat) (st : St) : St :=
  { st with trace := st.trace ++ [Ev.wait ms] }

/-- The errors the auth module throws, carrying the same information as the
Error messages of the source. -/
inductive AuthError where
  | signinBodyFailed (status : Nat) (body : String)
  | signin2faFailed (status : Nat) (body : String)
  | tokenInvalid (status : Nat)
  | refreshUnrecoverable
  | mfaUnavailable
deriving DecidableEq, Repr

-- ─── npsRequestWithRetry ────────────────────────────────────────────────────

/-- The body of the for-loop of npsRequestWithRetry.  attempt is the loop counter,
fuel the number of attempts still permitted (maxRetries - attempt).  A non-500
status returns immediately; a 500 with attempts remaining waits
1000·2^attempt ms and retries; the last response is returned when attempts
run out.  The fuel = 0 case is unreachable from npsRequestWithRetry (the
repository always uses the default maxRetries = 3); it mirrors the original
lastResponse! being undefined. -/
def retryGo (w : World) (e : Endpoint) (b : Option String) :
    Nat → Nat → St → Resp × St
  | _, 0, st => ({ status := 0, body := "" }, st)
  | attempt, fuel + 1, st =>
    let (r, st1) := doCall w e b st
    if r.status = 500 then
      if fuel = 0 then (r, st1)
      else retryGo w e b (attempt + 1) fuel (recordWait (1000 * 2 ^ attempt) st1)
    else (r, st1)

/-- npsRequestWithRetry(url, options, maxRetries): retry a request on
transient 500s with exponential backoff. -/
def npsRequestWithRetry (w : World) (e : Endpoint) (b : Option String)
    (maxRetries : Nat) (st : St) : Resp × St :=
  retryGo w e b 0 maxRetries st

-- ─── TTY prompt, sign-in flows ──────────────────────────────────────────────

/-- promptMfaCode: read one line from the terminal device; if the TTY cannot
be opened or read, fail with the channel-unavailable remediation error; a
received line is trimmed.  (The 120 s real-time timeout is not modelled.) -/
def promptMfaCode (w : World) (st : St) : Except AuthError String × St :=
  match w.tty with
  | none => (.error .mfaUnavailable, st)
  | some line => (.ok line.trim, { st with trace := st.trace ++ [Ev.prompt] })

/-- signinBody(config, password): POST /signinBody through the retrying
requester; non-ok fails with status and body text; the returned token body
has one layer of surrounding quotes stripped.  (The request body
value carrying Login/Password is not observable in the model.) -/
def signinBody (w : World) (_cfg : NpsConfig) (_password : String) (st : St) :
    Except AuthError String × St :=
  let (r, st1) := npsRequestWithRetry w .signinBody none 3 st
  if !r.ok then (.error (.signinBodyFailed r.status r.body), st1)
  else (.ok (stripTokenQuotes r.body), st1)

/-- signin2fa(config, initialToken, mfaCode): POST /signin2fa with the initial
token as bearer; same failure and unquoting rules as signinBody. -/
def signin2fa (w : World) (_cfg : NpsConfig) (initialToken : String)
    (_mfaCode : String) (st : St) : Except AuthError String × St :=
  let (r, st1) := npsRequestWithRetry w .signin2fa (some initialToken) 3 st
  if !r.ok then (.error (.signin2faFailed r.status r.body), st1)
  else (.ok (stripTokenQuotes r.body), st1)

-- ─── Strategy sub-flows ─────────────────────────────────────────────────────

/-- authenticateWithToken: validate config.preSuppliedToken! against the
GET /api/v1/Version probe (a single npsRequest, no retry); non-ok fails. -/
def authenticateWithToken (w : World) (cfg : NpsConfig) (st : St) :
    Except AuthError String × St :=
  let token := cfg.preSuppliedToken.getD ""
  let (r, st1) := doCall w .version (some token) st
  if !r.ok then (.error (.tokenInvalid r.status), st1)
  else (.ok token, st1)

/-- authenticateWithApiKey: signinBody with config.apiKey! as the password;
the missing-role-claim stderr warning has no modelled effect. -/
def authenticateWithApiKey (w : World) (cfg : NpsConfig) (st : St) :
    Except AuthError String × St :=
  signinBody w cfg (cfg.apiKey.getD "") st

/-- authenticateInteractivePrompt: signinBody, then the TTY prompt, then
signin2fa with the prompted code. -/
def authenticateInteractivePrompt (w : World) (cfg : NpsConfig) (st : St) :
    Except AuthError String × St :=
  match signinBody w cfg cfg.password st with
  | (.error e, st1) => (.error e, st1)
  | (.ok initialToken, st1) =>
    match promptMfaCode w st1 with
    | (.error e, st2) => (.error e, st2)
    | (.ok mfaCode, st2) => signin2fa w cfg initialToken mfaCode st2

/-- authenticateInteractive: signinBody, then signin2fa with
config.mfaCode || "000000". -/
def authenticateInteractive (w : World) (cfg : NpsConfig) (st : St) :
    Except AuthError String × St :=
  match signinBody w cfg cfg.password st with
  | (.error e, st1) => (.error e, st1)
  | (.ok initialToken, st1) =>
    signin2fa w cfg initialToken (jsOr cfg.mfaCode "000000") st1

-- ─── authenticate / refreshToken / getToken / clearToken ────────────────────

/-- The TokenState written on every successful authentication/refresh:
token, acquiredAt = Date.now(), expiresAt = parseJwtExp(token). -/
def setTokenState (w : World) (finalToken : String) (st : St) : St :=
  { st with
    tokenState := some ⟨finalToken, w.now, parseJwtExp w.dec finalToken⟩ }

/-- authenticate(config): dispatch on the strategy, then cache the final
token with its derived expiry.  (The default branch of the TypeScript switch is
unreachable: Strategy has exactly the four declared values.) -/
def authenticate (w : World) (cfg : NpsConfig) (st : St) :
    Except AuthError String × St :=
  let res := match cfg.authStrategy with
    | .token => authenticateWithToken w cfg st
    | .apikey => authenticateWithApiKey w cfg st
    | .interactivePrompt => authenticateInteractivePrompt w cfg st
    | .interactive => authenticateInteractive w cfg st
  match res with
  | (.error e, st1) => (.error e, st1)
  | (.ok finalToken, st1) => (.ok finalToken, setTokenState w finalToken st1)

/-- refreshToken(config, currentToken): GET /api/v1/UserToken through the
retrying requester.  On a non-ok response: the token strategy fails with the
unrecoverable update-NPS_TOKEN error (it has no credentials to fall back on);
every other strategy re-authenticates from scratch.  On success the body is
unquoted and returned. -/
def refreshToken (w : World) (cfg : NpsConfig) (currentToken : String)
    (st : St) : Except AuthError String × St :=
  let (r, st1) := npsRequestWithRetry w .userToken (some currentToken) 3 st
  if !r.ok then
    if cfg.authStrategy = .token then (.error .refreshUnrecoverable, st1)
    else authenticate w cfg st1
  else (.ok (stripTokenQuotes r.body), st1)

/-- The expiry test of getToken: the JavaScript test
tokenState.expiresAt && tokenState.expiresAt - now < bufferMs, with
bufferMs = 7 minutes; an absent or zero expiresAt is falsy. -/
def expiringCheck (w : World) (ts : TokenState) : Bool :=
  match ts.expiresAt with
  | none => false
  | some e => !(e == 0) && decide (e - w.now < 7 * 60 * 1000)

/-- getToken(config): authenticate when no TokenState is cached; otherwise
refresh when the cached expiry is truthy (present and nonzero — JavaScript
tokenState.expiresAt && …) and within the 7-minute buffer of Date.now();
on refresh failure the token strategy rethrows while every other strategy
re-authenticates; otherwise return the cached token with no network call. -/
def getToken (w : World) (cfg : NpsConfig) (st : St) :
    Except AuthError String × St :=
  match st.tokenState with
  | none => authenticate w cfg st
  | some ts =>
    if expiringCheck w ts then
      match refreshToken w cfg ts.token st with
      | (.ok newToken, st1) => (.ok newToken, setTokenState w newToken st1)
      | (.error err, st1) =>
        if cfg.authStrategy = .token then (.error err, st1)
        else authenticate w cfg st1
    else (.ok ts.token, st)

/-- clearToken(): drop the cached TokenState (the cleared trace event is
observation-only instrumentation). -/
def clearToken (st : St) : St :=
  { st with tokenState := none, trace := st.trace ++ [Ev.cleared] }

-- ─── API client (client.ts) ─────────────────────────────────────────────────

/-- Errors thrown by npsApi: either a propagated auth error, or NpsApiError
with statusCode, apiMessage and endpoint.  apiMessage carries the runtime
value of errorJson.message || errorJson.error || errorJson.title || errorText
(a non-string JSON value is kept as-is, as JavaScript would). -/
inductive ClientError where
  | auth (e : AuthError)
  | api (statusCode : Nat) (apiMessage : Json) (endpoint : String)

/-- The successful result of npsApi: undefined for an empty body, the parsed JSON
value when the body parses, the raw text otherwise. -/
inductive ApiResult where
  | empty
  | json (j : Json)
  | text (s : String)

/-- errorJson.message || errorJson.error || errorJson.title: the first truthy
field among the candidate keys. -/
def firstTruthyField (j : Json) (keys : List String) : Option Json :=
  keys.findSome? fun k =>
    match j.getField k with
    | some v => if v.truthy then some v else none
    | none => none

/-- The error-message extraction of npsApi: JSON.parse the error body and take
the first truthy of message/error/title, falling back to the raw text. -/
def extractErrorMessage (w : World) (errorText : String) : Json :=
  match w.jparse errorText with
  | none => Json.str errorText
  | some errorJson =>
    (firstTruthyField errorJson ["message", "error", "title"]).getD
      (Json.str errorText)

/-- The tail of npsApi after the (possibly retried) request: non-ok responses
throw NpsApiError(status, extracted message, path); empty bodies yield
undefined; otherwise JSON.parse with raw-text fallback. -/
def npsApiFinish (w : World) (path : String) (response : Resp) (st : St) :
    Except ClientError ApiResult × St :=
  if !response.ok then
    (.error (.api response.status (extractErrorMessage w response.body) path), st)
  else if response.body = "" then (.ok .empty, st)
  else
    match w.jparse response.body with
    | some j => (.ok (.json j), st)
    | none => (.ok (.text response.body), st)

/-- npsApi(path, options): obtain a token via getToken, issue the
authenticated request; on a 401, clearToken, obtain a fresh token and retry
exactly once; then parse or throw per npsApiFinish.  (URL building from
baseUrl/path/params and the JSON request body are not observable in the
model; the config parameter stands for the lazily loaded getConfig().) -/
def npsApi (w : World) (cfg : NpsConfig) (path : String) (st : St) :
    Except ClientError ApiResult × St :=
  match getToken w cfg st with
  | (.error e, st1) => (.error (.auth e), st1)
  | (.ok token, st1) =>
    let (response, st2) := doCall w (.api path) (some token) st1
    if response.status = 401 then
      match getToken w cfg (clearToken st2) with
      | (.error e, st4) => (.error (.auth e), st4)
      | (.ok token2, st4) =>
        let (response2, st5) := doCall w (.api path) (some token2) st4
        npsApiFinish w path response2 st5
    else npsApiFinish w path response st2

-- ─── Observation helpers used by theorem statements ─────────────────────────

/-- Number of network requests recorded in a trace. -/
def callCount (tr : List Ev) : Nat :=
  (tr.filter fun ev => match ev with | .call _ _ => true | _ => false).length

/-- The backoff waits recorded in a trace, in order. -/
def waitsOf (tr : List Ev) : List Nat :=
  tr.filterMap fun ev => match ev with | .wait ms => some ms | _ => none

/-- An event is a sign-in network call (either sign-in endpoint). -/
def isSigninCall (ev : Ev) : Bool :=
  match ev with
  | .call .signinBody _ => true
  | .call .signin2fa _ => true
  | _ => false

/-- The token-cache invariant: any cached TokenState carries exactly the
expiry decoded from its own token text. -/
def TokenInv (w : World) (st : St) : Prop :=
  ∀ ts, st.tokenState = some ts → ts.expiresAt = parseJwtExp w.dec ts.token

-- ─── Supporting lemmas ──────────────────────────────────────────────────────

/-- One retry round of the requester: the result is the response to some
request strictly within the fuel bound, the call counter advances by exactly
the number of requests issued, the cached token is untouched, and the trace
grows only by requests to the same endpoint and backoff waits. -/
theorem retryGo_spec (w : World) (e : Endpoint) (b : Option String) :
    ∀ fuel attempt st, 1 ≤ fuel →
    ∃ k evs,
      retryGo w e b attempt fuel st =
        (w.net (st.nCalls + k),
         ⟨st.trace ++ evs, st.nCalls + k + 1, st.tokenState⟩) ∧
      k + 1 ≤ fuel ∧
      (∀ ev ∈ evs, ev = Ev.call e b ∨ ∃ ms, ev = Ev.wait ms) := by
  intro fuel
  induction fuel with
  | zero => intro attempt st h; omega
  | succ f ih =>
    intro attempt st _
    by_cases h500 : (w.net st.nCalls).status = 500
    · by_cases hf : f = 0
      · subst hf
        refine ⟨0, [Ev.call e b], ?_, by omega, ?_⟩
        · simp [retryGo, doCall, h500]
        · intro ev hev
          simp only [List.mem_singleton] at hev
          exact Or.inl hev
      · obtain ⟨f1, rfl⟩ : ∃ f1, f = f1 + 1 := ⟨f - 1, by omega⟩
        obtain ⟨k, evs, heq, hk, hev⟩ :=
          ih (attempt + 1)
            ⟨st.trace ++ [Ev.call e b, Ev.wait (1000 * 2 ^ attempt)],
             st.nCalls + 1, st.tokenState⟩ (by omega)
        refine ⟨k + 1, [Ev.call e b, Ev.wait (1000 * 2 ^ attempt)] ++ evs, ?_, by omega, ?_⟩
        · have hunfold :
              retryGo w e b attempt (f1 + 1 + 1) st =
                retryGo w e b (attempt + 1) (f1 + 1)
                  ⟨st.trace ++ [Ev.call e b, Ev.wait (1000 * 2 ^ attempt)],
                   st.nCalls + 1, st.tokenState⟩ := by
            simp [retryGo, doCall, recordWait, h500]
          rw [hunfold, heq]
          simp only [List.append_assoc]
          have hn : st.nCalls + 1 + k = st.nCalls + (k + 1) := by omega
          rw [hn]
        · intro ev hev2
          rcases List.mem_append.mp hev2 with h1 | h2
          · simp only [List.mem_cons, List.mem_singleton] at h1
            rcases h1 with h1 | h1 | h1
            · exact Or.inl h1
            · exact Or.inr ⟨_, h1⟩
            · cases h1
          · exact hev ev h2
    · refine ⟨0, [Ev.call e b], ?_, by omega, ?_⟩
      · simp [retryGo, doCall, h500]
      · intro ev hev
        simp only [List.mem_singleton] at hev
        exact Or.inl hev

-- ─── Shared concrete fixtures for witnesses and counterexamples ─────────────

/-- A world whose server answers every request with a 500. -/
def allFiveHundred : World :=
  ⟨fun _ => ⟨500, "boom"⟩, none, fun _ => none, fun _ => none, 0⟩

/-- The empty starting state (no cached token, nothing observed yet). -/
def st0 : St := ⟨[], 0, none⟩

-- ─── Claim C1 ───────────────────────────────────────────────────────────────

/-- Claim C1, counterexample: a request that always returns 500 is attempted
exactly 3 times and the last 500 response is returned, but the waits between
attempts are 1 s and 2 s only — not the 1 s, 2 s, 4 s stated by the claim. -/
theorem C1_counterexample :
    (npsRequestWithRetry allFiveHundred .signinBody none 3 st0).1.status = 500 ∧
    callCount (npsRequestWithRetry allFiveHundred .signinBody none 3 st0).2.trace = 3 ∧
    waitsOf (npsRequestWithRetry allFiveHundred .signinBody none 3 st0).2.trace = [1000, 2000] ∧
    waitsOf (npsRequestWithRetry allFiveHundred .signinBody none 3 st0).2.trace ≠ [1000, 2000, 4000] := by
  refine ⟨rfl, rfl, rfl, ?_⟩
  decide

/-- Claim C1 (amended): with the default maxRetries = 3, the requester retries
only on a status of exactly 500.  A first response with any other status is
returned after exactly one attempt with no wait; a 500 followed by a non-500
yields the second response after a single 1 s wait; a request that repeatedly
returns 500 is attempted exactly 3 times with waits of 1 s and 2 s between
consecutive attempts (no wait follows the final attempt), after which the
last 500 response is returned. -/
theorem C1_retry_behavior (w : World) (e : Endpoint) (b : Option String) (st : St) :
    ((w.net st.nCalls).status ≠ 500 →
      npsRequestWithRetry w e b 3 st =
        (w.net st.nCalls,
         ⟨st.trace ++ [Ev.call e b], st.nCalls + 1, st.tokenState⟩))
    ∧ ((w.net st.nCalls).status = 500 → (w.net (st.nCalls + 1)).status ≠ 500 →
      npsRequestWithRetry w e b 3 st =
        (w.net (st.nCalls + 1),
         ⟨st.trace ++ [Ev.call e b, Ev.wait 1000, Ev.call e b],
          st.nCalls + 2, st.tokenState⟩))
    ∧ ((∀ i, (w.net i).status = 500) →
      npsRequestWithRetry w e b 3 st =
        (w.net (st.nCalls + 2),
         ⟨st.trace ++ [Ev.call e b, Ev.wait 1000, Ev.call e b, Ev.wait 2000, Ev.call e b],
          st.nCalls + 3, st.tokenState⟩) ∧ (w.net (st.nCalls + 2)).status = 500) := by
  refine ⟨?_, ?_, ?_⟩
  · intro h
    simp [npsRequestWithRetry, retryGo, doCall, h]
  · intro h1 h2
    simp [npsRequestWithRetry, retryGo, doCall, recordWait, h1, h2]
  · intro h
    refine ⟨?_, h _⟩
    simp [npsRequestWithRetry, retryGo, doCall, recordWait, h]

/-- Witness for C1_retry_behavior at the all-500 world and a 401 world. -/
theorem C1_witness :
    npsRequestWithRetry allFiveHundred .signinBody none 3 st0 =
      (⟨500, "boom"⟩,
       ⟨[Ev.call .signinBody none, Ev.wait 1000, Ev.call .signinBody none,
         Ev.wait 2000, Ev.call .signinBody none], 3, none⟩) ∧
    npsRequestWithRetry ⟨fun _ => ⟨401, "no"⟩, none, fun _ => none, fun _ => none, 0⟩
        .signinBody none 3 st0 =
      (⟨401, "no"⟩, ⟨[Ev.call .signinBody none], 1, none⟩) := by
  constructor
  · have h := (C1_retry_behavior allFiveHundred .signinBody none st0).2.2
      (fun i => rfl)
    simpa using h.1
  · have h := (C1_retry_behavior
      ⟨fun _ => ⟨401, "no"⟩, none, fun _ => none, fun _ => none, 0⟩
      .signinBody none st0).1 (by decide)
    simpa using h

-- ─── Claim C2 ───────────────────────────────────────────────────────────────

/-- When every server response is non-2xx, signinBody fails with the
status/body error. -/
theorem signinBody_allBad (w : World) (cfg : NpsConfig) (pw : String) (st : St)
    (hbad : ∀ i, (w.net i).ok = false) :
    ∃ s bdy st1, signinBody w cfg pw st = (.error (.signinBodyFailed s bdy), st1) := by
  obtain ⟨k, evs, heq, _, _⟩ := retryGo_spec w .signinBody none 3 0 st (by omega)
  refine ⟨(w.net (st.nCalls + k)).status, (w.net (st.nCalls + k)).body,
    ⟨st.trace ++ evs, st.nCalls + k + 1, st.tokenState⟩, ?_⟩
  simp [signinBody, npsRequestWithRetry, heq, hbad (st.nCalls + k)]

/-- When every server response is non-2xx, authenticate fails (under every
strategy). -/
theorem authenticate_allBad (w : World) (cfg : NpsConfig) (st : St)
    (hbad : ∀ i, (w.net i).ok = false) :
    ∃ err st1, authenticate w cfg st = (.error err, st1) := by
  cases hcs : cfg.authStrategy
  case token =>
    refine ⟨.tokenInvalid (w.net st.nCalls).status,
      ⟨st.trace ++ [Ev.call .version (some (cfg.preSuppliedToken.getD ""))],
       st.nCalls + 1, st.tokenState⟩, ?_⟩
    simp [authenticate, hcs, authenticateWithToken, doCall, hbad st.nCalls]
  case apikey =>
    obtain ⟨s, bdy, st1, h⟩ := signinBody_allBad w cfg (cfg.apiKey.getD "") st hbad
    refine ⟨.signinBodyFailed s bdy, st1, ?_⟩
    simp [authenticate, hcs, authenticateWithApiKey, h]
  case interactivePrompt =>
    obtain ⟨s, bdy, st1, h⟩ := signinBody_allBad w cfg cfg.password st hbad
    refine ⟨.signinBodyFailed s bdy, st1, ?_⟩
    simp [authenticate, hcs, authenticateInteractivePrompt, h]
  case interactive =>
    obtain ⟨s, bdy, st1, h⟩ := signinBody_allBad w cfg cfg.password st hbad
    refine ⟨.signinBodyFailed s bdy, st1, ?_⟩
    simp [authenticate, hcs, authenticateInteractive, h]

/-- Claim C2 (confirmed): with a cached token due for refresh and a server
answering every request with a non-2xx status, getToken under the token strategy
fails with the distinct unrecoverable error and issues no sign-in call
(neither signinBody nor signin2fa appears among the new events), while every
other strategy falls back to a full authenticate call. -/
theorem C2_refresh_nonOk (w : World) (cfg : NpsConfig) (st : St)
    (ts : TokenState) (e : Int)
    (hts : st.tokenState = some ts) (hexp : ts.expiresAt = some e) (hne : e ≠ 0)
    (hlt : e - w.now < 7 * 60 * 1000) (hbad : ∀ i, (w.net i).ok = false) :
    (cfg.authStrategy = .token →
      (getToken w cfg st).1 = .error .refreshUnrecoverable ∧
      ∃ evs, (getToken w cfg st).2.trace = st.trace ++ evs ∧
        ∀ ev ∈ evs, isSigninCall ev = false)
    ∧ (cfg.authStrategy ≠ .token →
      ∃ stmid, getToken w cfg st = authenticate w cfg stmid) := by
  obtain ⟨k, evs, heq, hk, hev⟩ := retryGo_spec w .userToken (some ts.token) 3 0 st (by omega)
  have hrok : (w.net (st.nCalls + k)).ok = false := hbad _
  have hlt' : e - w.now < 420000 := by omega
  constructor
  · intro hstrat
    have hres : getToken w cfg st =
        (.error .refreshUnrecoverable,
         ⟨st.trace ++ evs, st.nCalls + k + 1, st.tokenState⟩) := by
      simp [getToken, expiringCheck, hts, hexp, hne, hlt', refreshToken,
        npsRequestWithRetry, heq, hrok, hstrat]
    rw [hres]
    refine ⟨rfl, evs, rfl, ?_⟩
    intro ev hv
    rcases hev ev hv with h1 | ⟨ms, h1⟩ <;> subst h1 <;> rfl
  · intro hstrat
    obtain ⟨err, stA, hA⟩ :=
      authenticate_allBad w cfg ⟨st.trace ++ evs, st.nCalls + k + 1, st.tokenState⟩ hbad
    rw [hts] at hA
    refine ⟨stA, ?_⟩
    simp [getToken, expiringCheck, hts, hexp, hne, hlt', refreshToken,
      npsRequestWithRetry, heq, hrok, hstrat, hA]

/-- Shared fixture: a world whose server answers every request with 401. -/
def all401 : World :=
  ⟨fun _ => ⟨401, "unauthorized"⟩, none, fun _ => none, fun _ => none, 0⟩

/-- Shared fixture: a token-strategy configuration. -/
def cfgTokenStrat : NpsConfig :=
  ⟨"https://x", "", "", none, none, some "T", false, .token, false⟩

/-- Shared fixture: a state caching a token that expires 1 s after epoch. -/
def stCached : St := ⟨[], 0, some ⟨"tok", 0, some 1000⟩⟩

/-- Witness for C2_refresh_nonOk: under the token strategy with a 401-only
server, getToken fails with the unrecoverable refresh error. -/
theorem C2_witness :
    (getToken all401 cfgTokenStrat stCached).1 =
      .error AuthError.refreshUnrecoverable := by
  have h := (C2_refresh_nonOk all401 cfgTokenStrat stCached ⟨"tok", 0, some 1000⟩
    1000 rfl rfl (by decide) (by decide) (fun i => rfl)).1 rfl
  exact h.1

-- ─── Claim C3 ───────────────────────────────────────────────────────────────

/-- Shared fixture: an environment with only NPS_URL set. -/
def envUrlOnly : Env := ⟨some "https://x", none, none, none, none, none, none, none⟩

/-- Claim C3, counterexample: with no credentials configured and NPS_USERNAME
absent, configuration loading fails with the missing-username error, not with
the fatal error that enumerates all four strategy options
(missingCredentials). -/
theorem C3_counterexample :
    loadConfig envUrlOnly = .error ConfigError.missingUsername ∧
    loadConfig envUrlOnly ≠ .error ConfigError.missingCredentials := by
  constructor
  · rfl
  · intro hc
    have h : loadConfig envUrlOnly = .error ConfigError.missingUsername := rfl
    rw [h] at hc
    injection hc with hc2
    cases hc2

/-- Claim C3 (amended): strategy selection has fixed first-match-wins
precedence — pre-supplied token, then API key, then MFA-prompt flag with a
password, then a password — and any successfully loaded configuration carries
exactly the detected strategy.  When none of the three credential kinds is
configured, loading always fails fatally (the model performs no network
calls), and the failing error is completely determined: the missing-NPS_URL
error when NPS_URL is absent (for any environment), the missing-NPS_USERNAME
error when NPS_URL is present but NPS_USERNAME absent, and the error
enumerating all four options exactly when both NPS_URL and NPS_USERNAME are
present — indeed the enumerating error can only ever arise with both
present. -/
theorem C3_strategy_precedence (env : Env) :
    (envTruthy env.NPS_TOKEN = true → detectAuthStrategy env = .token)
    ∧ (envTruthy env.NPS_TOKEN = false → envTruthy env.NPS_API_KEY = true →
        detectAuthStrategy env = .apikey)
    ∧ (envTruthy env.NPS_TOKEN = false → envTruthy env.NPS_API_KEY = false →
        env.NPS_MFA_PROMPT = some "true" → envTruthy env.NPS_PASSWORD = true →
        detectAuthStrategy env = .interactivePrompt)
    ∧ (envTruthy env.NPS_TOKEN = false → envTruthy env.NPS_API_KEY = false →
        env.NPS_MFA_PROMPT ≠ some "true" → envTruthy env.NPS_PASSWORD = true →
        detectAuthStrategy env = .interactive)
    ∧ (∀ cfg, loadConfig env = .ok cfg → cfg.authStrategy = detectAuthStrategy env)
    ∧ (envTruthy env.NPS_URL = false → loadConfig env = .error .missingUrl)
    ∧ (loadConfig env = .error .missingCredentials →
        envTruthy env.NPS_URL = true ∧ envTruthy env.NPS_USERNAME = true)
    ∧ (envTruthy env.NPS_TOKEN = false → envTruthy env.NPS_API_KEY = false →
        envTruthy env.NPS_PASSWORD = false →
        (envTruthy env.NPS_URL = true → envTruthy env.NPS_USERNAME = false →
          loadConfig env = .error .missingUsername)
        ∧ (envTruthy env.NPS_URL = true → envTruthy env.NPS_USERNAME = true →
          loadConfig env = .error .missingCredentials)
        ∧ (∃ err, loadConfig env = .error err)) := by
  refine ⟨?_, ?_, ?_, ?_, ?_, ?_, ?_, ?_⟩
  · intro h; simp [detectAuthStrategy, h]
  · intro h1 h2; simp [detectAuthStrategy, h1, h2]
  · intro h1 h2 h3 h4; simp [detectAuthStrategy, h1, h2, h3, h4]
  · intro h1 h2 h3 h4; simp [detectAuthStrategy, h1, h2, h3, h4]
  · intro cfg h
    simp only [loadConfig] at h
    split at h
    · simp at h
    · split at h
      · injection h with h2
        subst h2
        rfl
      · split at h
        · simp at h
        · split at h
          · simp at h
          · injection h with h2
            subst h2
            rfl
  · intro hurl
    simp [loadConfig, hurl]
  · intro h
    by_cases hurl : envTruthy env.NPS_URL
    · refine ⟨hurl, ?_⟩
      by_cases huser : envTruthy env.NPS_USERNAME
      · exact huser
      · by_cases hstrat : detectAuthStrategy env = .token
        · simp [loadConfig, hurl, hstrat] at h
        · simp [loadConfig, hurl, hstrat, huser] at h
    · simp [loadConfig, hurl] at h
  · intro h1 h2 h3
    have hdet : detectAuthStrategy env = .interactive := by
      simp [detectAuthStrategy, h1, h2, h3]
    refine ⟨?_, ?_, ?_⟩
    · intro hurl huser
      simp [loadConfig, hurl, huser, hdet]
    · intro hurl huser
      simp [loadConfig, hurl, huser, hdet, h1, h2, h3]
    · by_cases hurl : envTruthy env.NPS_URL
      · by_cases huser : envTruthy env.NPS_USERNAME
        · exact ⟨.missingCredentials,
            by simp [loadConfig, hurl, huser, hdet, h1, h2, h3]⟩
        · exact ⟨.missingUsername, by simp [loadConfig, hurl, huser, hdet]⟩
      · exact ⟨.missingUrl, by simp [loadConfig, hurl]⟩

/-- Shared fixture: an environment with every credential kind set at once. -/
def envAllCreds : Env :=
  ⟨some "u", some "n", some "p", some "k", some "T", some "true", none, none⟩

/-- Shared fixture: NPS_URL and NPS_USERNAME present, no credentials. -/
def envNoCreds : Env :=
  ⟨some "https://x", some "admin", none, none, none, none, none, none⟩

/-- Shared fixture: a completely empty environment. -/
def envEmpty : Env := ⟨none, none, none, none, none, none, none, none⟩

/-- Witness for C3_strategy_precedence: a token-bearing environment selects
the token strategy even with every other credential set; a no-credentials
environment with NPS_URL and NPS_USERNAME present fails with the enumerating
error; one with only NPS_URL fails with the missing-username error; and one
with nothing set fails with the missing-URL error. -/
theorem C3_witness :
    detectAuthStrategy envAllCreds = .token ∧
    loadConfig envNoCreds = .error ConfigError.missingCredentials ∧
    loadConfig envUrlOnly = .error ConfigError.missingUsername ∧
    loadConfig envEmpty = .error ConfigError.missingUrl := by
  refine ⟨?_, ?_, ?_, ?_⟩
  · exact (C3_strategy_precedence envAllCreds).1 rfl
  · exact ((C3_strategy_precedence envNoCreds).2.2.2.2.2.2.2 rfl rfl rfl).2.1 rfl rfl
  · exact ((C3_strategy_precedence envUrlOnly).2.2.2.2.2.2.2 rfl rfl rfl).1 rfl rfl
  · exact (C3_strategy_precedence envEmpty).2.2.2.2.2.1 rfl

-- ─── Claim C4 ───────────────────────────────────────────────────────────────

/-- Claim C4 (confirmed): when a TokenState is cached and either its expiry is
absent (unparseable token) or its remaining lifetime exceeds the 7-minute
buffer, getToken returns the cached token unchanged and leaves the state —
trace, call counter and cache — exactly as it was: zero network calls, no
refresh, no reauthentication. -/
theorem C4_fresh_token_no_calls (w : World) (cfg : NpsConfig) (st : St)
    (ts : TokenState) (hts : st.tokenState = some ts)
    (hfresh : ts.expiresAt = none ∨
      ∃ e, ts.expiresAt = some e ∧ e - w.now > 7 * 60 * 1000) :
    getToken w cfg st = (.ok ts.token, st) := by
  rcases hfresh with h | ⟨e, he, hgt⟩
  · simp [getToken, expiringCheck, hts, h]
  · have hnl : ¬ (e - w.now < 420000) := by omega
    simp [getToken, expiringCheck, hts, he, hnl]

/-- Witness for C4_fresh_token_no_calls at a cached token without expiry. -/
theorem C4_witness :
    getToken all401 cfgTokenStrat ⟨[], 0, some ⟨"tok", 0, none⟩⟩ =
      (.ok "tok", ⟨[], 0, some ⟨"tok", 0, none⟩⟩) :=
  C4_fresh_token_no_calls all401 cfgTokenStrat _ _ rfl (Or.inl rfl)

-- ─── Claim C10 ──────────────────────────────────────────────────────────────

/-- Claim C10 (confirmed): a payload whose exp claim is the number 0 makes
parseJwtExp return 0 (= 0 × 1000) rather than absent, and the
JavaScript-truthiness expiry check of getToken (tokenState.expiresAt && …) treats a cached
expiresAt of 0 exactly like an absent expiry: the long-expired cached token is
returned with no refresh and no reauthentication network call. -/
theorem C10_zero_exp :
    (∀ dec tok p, parseJwt dec tok = some p → p.truthy = true →
      p.getField "exp" = some (Json.num 0) → parseJwtExp dec tok = some 0)
    ∧ (∀ (w : World) (cfg : NpsConfig) (st : St) ts,
      st.tokenState = some ts → ts.expiresAt = some 0 →
      getToken w cfg st = (.ok ts.token, st)) := by
  constructor
  · intro dec tok p h1 h2 h3
    simp [parseJwtExp, h1, h2, h3]
  · intro w cfg st ts hts hexp
    simp [getToken, expiringCheck, hts, hexp]

/-- Shared fixture: a decoder giving the payload segment "zeroexp" an object
with exp = 0. -/
def decExpZero : String → Option Json := fun s =>
  if s = "zeroexp" then some (Json.obj [("exp", Json.num 0)]) else none

/-- Witness for C10_zero_exp at the token "h.zeroexp.s" with Date.now() long
past the (epoch) expiry. -/
theorem C10_witness :
    parseJwtExp decExpZero "h.zeroexp.s" = some 0 ∧
    getToken ⟨fun _ => ⟨500, ""⟩, none, decExpZero, fun _ => none, 99999999⟩
        cfgTokenStrat ⟨[], 0, some ⟨"h.zeroexp.s", 0, some 0⟩⟩ =
      (.ok "h.zeroexp.s", ⟨[], 0, some ⟨"h.zeroexp.s", 0, some 0⟩⟩) := by
  constructor
  · exact C10_zero_exp.1 decExpZero "h.zeroexp.s"
      (Json.obj [("exp", Json.num 0)]) rfl rfl rfl
  · exact C10_zero_exp.2 ⟨fun _ => ⟨500, ""⟩, none, decExpZero, fun _ => none, 99999999⟩
      cfgTokenStrat ⟨[], 0, some ⟨"h.zeroexp.s", 0, some 0⟩⟩
      ⟨"h.zeroexp.s", 0, some 0⟩ rfl rfl

-- ─── Claim C5 ───────────────────────────────────────────────────────────────

/-- Shared fixture: a server that answers 200 with a quoted token body, and no
terminal attached. -/
def wOkNoTty : World :=
  ⟨fun _ => ⟨200, "\"tok1\""⟩, none, fun _ => none, fun _ => none, 0⟩

/-- Shared fixture: an interactive-prompt configuration. -/
def cfgPrompt : NpsConfig :=
  ⟨"https://x", "admin", "pw", none, none, none, true, .interactivePrompt, false⟩

/-- Claim C5, counterexample: with no terminal attached, authenticate under
interactive-prompt does fail with the MFA-channel-unavailable error, but only
after the signinBody network call has already been issued — the trace of the
run contains a sign-in call, contradicting "before any sign-in network call
(signinBody or signin2fa) is made". -/
theorem C5_counterexample :
    (authenticate wOkNoTty cfgPrompt st0).1 = .error AuthError.mfaUnavailable ∧
    (authenticate wOkNoTty cfgPrompt st0).2.trace = [Ev.call .signinBody none] ∧
    (authenticate wOkNoTty cfgPrompt st0).2.trace.filter isSigninCall ≠ [] := by
  refine ⟨rfl, rfl, ?_⟩
  decide

/-- Claim C5 (amended): under the interactive-prompt strategy with no terminal
device attached, authenticate fails with the MFA-channel-unavailable error
after the initial signinBody call succeeds and before any signin2fa call is
made: the run adds exactly the one signinBody request and nothing else. -/
theorem C5_prompt_unavailable (w : World) (cfg : NpsConfig) (st : St)
    (htty : w.tty = none) (hstrat : cfg.authStrategy = .interactivePrompt)
    (hok : (w.net st.nCalls).ok = true) :
    authenticate w cfg st =
      (.error .mfaUnavailable,
       ⟨st.trace ++ [Ev.call .signinBody none], st.nCalls + 1, st.tokenState⟩) := by
  have h500 : (w.net st.nCalls).status ≠ 500 := by
    have h := hok
    simp [Resp.ok] at h
    omega
  simp [authenticate, hstrat, authenticateInteractivePrompt, signinBody,
    npsRequestWithRetry, retryGo, doCall, h500, hok, promptMfaCode, htty]

/-- Witness for C5_prompt_unavailable at the concrete no-TTY world. -/
theorem C5_witness :
    authenticate wOkNoTty cfgPrompt st0 =
      (.error AuthError.mfaUnavailable, ⟨[Ev.call .signinBody none], 1, none⟩) := by
  have h := C5_prompt_unavailable wOkNoTty cfgPrompt st0 rfl rfl rfl
  simpa using h

-- ─── Claim C6 ───────────────────────────────────────────────────────────────

/-- Shared fixture: a server answering 200 with a doubly quoted token body. -/
def wDoubleQuoted : World :=
  ⟨fun _ => ⟨200, "\"\"abc.def.ghi\"\""⟩, none, fun _ => none, fun _ => none, 0⟩

/-- Claim C6, counterexample: a sign-in response body carrying two layers of
quotes yields a stored/returned token that still begins and ends with a
quotation mark, contradicting "the stored token text never begins or ends
with a quotation mark". -/
theorem C6_counterexample :
    (signinBody wDoubleQuoted cfgPrompt "pw" st0).1 = .ok "\"abc.def.ghi\"" ∧
    "\"abc.def.ghi\"".data.head? = some '"' ∧
    "\"abc.def.ghi\"".data.getLast? = some '"' := by
  exact ⟨rfl, by decide, by decide⟩

/-- Claim C6 (amended): every token body received from the sign-in,
MFA-completion and refresh endpoints is stored and returned as
stripTokenQuotes of the body: one leading and one trailing double quote are
each removed if present (a body with exactly one surrounding layer yields the
bare token, a body without surrounding quotes is returned unchanged) — but
with nested quote layers only the outermost is removed, so the result can
still begin or end with a quotation mark. -/
theorem C6_quote_stripping :
    (∀ (w : World) (cfg : NpsConfig) pw st, (w.net st.nCalls).ok = true →
      (signinBody w cfg pw st).1 = .ok (stripTokenQuotes (w.net st.nCalls).body))
    ∧ (∀ (w : World) (cfg : NpsConfig) t c st, (w.net st.nCalls).ok = true →
      (signin2fa w cfg t c st).1 = .ok (stripTokenQuotes (w.net st.nCalls).body))
    ∧ (∀ (w : World) (cfg : NpsConfig) t st, (w.net st.nCalls).ok = true →
      (refreshToken w cfg t st).1 = .ok (stripTokenQuotes (w.net st.nCalls).body))
    ∧ (∀ s : String, stripTokenQuotes ("\"" ++ s ++ "\"") = s)
    ∧ (∀ s : String, s.data.head? ≠ some '"' → s.data.getLast? ≠ some '"' →
        stripTokenQuotes s = s) := by
  have hone : ∀ (w : World) (st : St) (e : Endpoint) (b : Option String),
      (w.net st.nCalls).ok = true →
      npsRequestWithRetry w e b 3 st =
        (w.net st.nCalls, ⟨st.trace ++ [Ev.call e b], st.nCalls + 1, st.tokenState⟩) := by
    intro w st e b hok
    have h500 : (w.net st.nCalls).status ≠ 500 := by
      have h := hok
      simp [Resp.ok] at h
      omega
    simp [npsRequestWithRetry, retryGo, doCall, h500]
  refine ⟨?_, ?_, ?_, ?_, ?_⟩
  · intro w cfg pw st hok
    simp [signinBody, hone w st _ _ hok, hok]
  · intro w cfg t c st hok
    simp [signin2fa, hone w st _ _ hok, hok]
  · intro w cfg t st hok
    simp [refreshToken, hone w st _ _ hok, hok]
  · intro s
    have hd : ("\"" ++ s ++ "\"").data = '"' :: (s.data ++ ['"']) := by
      simp
    simp [stripTokenQuotes, hd, stripQuotesChars]
  · intro s h1 h2
    have hstrip : stripQuotesChars s.data = s.data := by
      unfold stripQuotesChars
      cases hs : s.data with
      | nil => simp
      | cons c rest =>
        rw [hs] at h1 h2
        have hc : c ≠ '"' := by simpa using h1
        simp only [hc, if_false]
        cases hl : (c :: rest).getLast? with
        | none => simp at hl
        | some d =>
          have hdq : d ≠ '"' := by
            rw [hl] at h2
            simpa using h2
          simp [hdq]
    simp [stripTokenQuotes, hstrip]

/-- Shared fixture: a server answering 200 with a singly quoted token body. -/
def wSingleQuoted : World :=
  ⟨fun _ => ⟨200, "\"abc.def.ghi\""⟩, none, fun _ => none, fun _ => none, 0⟩

/-- Witness for C6_quote_stripping: a singly quoted body yields the bare
token, and the pure stripping behaves as stated on quoted and plain strings. -/
theorem C6_witness :
    (signinBody wSingleQuoted cfgPrompt "pw" st0).1 = .ok "abc.def.ghi" ∧
    stripTokenQuotes "\"xyz\"" = "xyz" ∧
    stripTokenQuotes "plain" = "plain" := by
  refine ⟨?_, ?_, ?_⟩
  · exact C6_quote_stripping.1 wSingleQuoted cfgPrompt "pw" st0 rfl
  · exact C6_quote_stripping.2.2.2.1 "xyz"
  · exact C6_quote_stripping.2.2.2.2 "plain" (by decide) (by decide)

-- ─── Claim C7 ───────────────────────────────────────────────────────────────

/-- Claim C7 (confirmed): hasAdminRole is false on an unparseable token and on
an absent role claim; on a single-string role claim it is true exactly when
the string lowercases to "administrator" or "admin"; on a list-of-strings
role claim it is true exactly when some element does. -/
theorem C7_admin_role (dec : String → Option Json) (tok : String) :
    (parseJwt dec tok = none → hasAdminRoleClaim dec tok = false)
    ∧ (∀ p, parseJwt dec tok = some p → p.getField roleUri = none →
        hasAdminRoleClaim dec tok = false)
    ∧ (∀ p s, parseJwt dec tok = some p → p.truthy = true →
        p.getField roleUri = some (Json.str s) →
        (hasAdminRoleClaim dec tok = true ↔
          (jsToLowerCase s = "administrator" ∨ jsToLowerCase s = "admin")))
    ∧ (∀ (p : Json) (ss : List String), parseJwt dec tok = some p →
        p.truthy = true →
        p.getField roleUri = some (Json.arr (ss.map Json.str)) →
        (hasAdminRoleClaim dec tok = true ↔
          ∃ s ∈ ss, jsToLowerCase s = "administrator" ∨ jsToLowerCase s = "admin")) := by
  refine ⟨?_, ?_, ?_, ?_⟩
  · intro h
    simp [hasAdminRoleClaim, h]
  · intro p h1 h2
    cases ht : p.truthy <;> simp [hasAdminRoleClaim, h1, h2, ht]
  · intro p s h1 ht h2
    by_cases hse : s = ""
    · subst hse
      have hres : hasAdminRoleClaim dec tok = false := by
        simp [hasAdminRoleClaim, h1, ht, h2, Json.truthy]
      rw [hres]
      constructor
      · intro hc
        cases hc
      · intro hc
        rcases hc with hc | hc <;> exact absurd hc (by decide)
    · have htr : (Json.str s).truthy = true := by
        simp [Json.truthy, hse]
      simp [hasAdminRoleClaim, h1, ht, h2, htr, isAdminJson]
  · intro p ss h1 ht h2
    simp [hasAdminRoleClaim, h1, ht, h2, Json.truthy, List.any_map,
      List.any_eq_true, isAdminJson, Function.comp]
    intro x hx hadm
    exact ht

/-- Shared fixture: a decoder with payloads for an "Administrator" string
role, a ["user","Admin"] list role, a ["viewer"] list role and a payload with
no role claim. -/
def decRoles : String → Option Json := fun s =>
  if s = "adm" then some (Json.obj [(roleUri, Json.str "Administrator")])
  else if s = "lst" then
    some (Json.obj [(roleUri, Json.arr [Json.str "user", Json.str "Admin"])])
  else if s = "vwr" then some (Json.obj [(roleUri, Json.arr [Json.str "viewer"])])
  else if s = "non" then some (Json.obj [("exp", Json.num 5)])
  else none

/-- Witness for C7_admin_role on the concrete cases cited by the claim:
"Administrator", ["user","Admin"], ["viewer"], absent claim, unparseable
token. -/
theorem C7_witness :
    hasAdminRoleClaim decRoles "h.adm.s" = true ∧
    hasAdminRoleClaim decRoles "h.lst.s" = true ∧
    hasAdminRoleClaim decRoles "h.vwr.s" = false ∧
    hasAdminRoleClaim decRoles "h.non.s" = false ∧
    hasAdminRoleClaim decRoles "notajwt" = false := by
  refine ⟨?_, ?_, ?_, ?_, ?_⟩
  · exact ((C7_admin_role decRoles "h.adm.s").2.2.1
      (Json.obj [(roleUri, Json.str "Administrator")]) "Administrator"
      rfl rfl rfl).mpr (Or.inl (by decide))
  · exact ((C7_admin_role decRoles "h.lst.s").2.2.2
      (Json.obj [(roleUri, Json.arr [Json.str "user", Json.str "Admin"])])
      ["user", "Admin"] rfl rfl rfl).mpr
      ⟨"Admin", by decide, Or.inr (by decide)⟩
  · have h := (C7_admin_role decRoles "h.vwr.s").2.2.2
      (Json.obj [(roleUri, Json.arr [Json.str "viewer"])]) ["viewer"]
      rfl rfl rfl
    cases hb : hasAdminRoleClaim decRoles "h.vwr.s"
    · rfl
    · obtain ⟨s, hs, hadm⟩ := h.mp hb
      simp only [List.mem_singleton] at hs
      subst hs
      rcases hadm with h2 | h2 <;> exact absurd h2 (by decide)
  · exact (C7_admin_role decRoles "h.non.s").2.1
      (Json.obj [("exp", Json.num 5)]) rfl rfl
  · exact (C7_admin_role decRoles "notajwt").1 rfl

-- ─── Claim C8 ───────────────────────────────────────────────────────────────

/-- Claim C8 (confirmed): when the first authenticated request through npsApi
(issued with a fresh cached token, modelled here under the token strategy)
receives a 401, the client invalidates the cache via clearToken (the cleared
event), obtains a fresh token — re-authenticating via the version probe — and
retries the request exactly once with the fresh bearer token: the run issues
exactly the two api requests recorded in the final trace and hands the second
response to the shared response-finishing step, so a non-ok second response
(including a second 401) is propagated as NpsApiError with its status and
extracted message and no further retry occurs. -/
theorem C8_api_401_retry (w : World) (cfg : NpsConfig) (path : String)
    (st : St) (ts : TokenState) (t2 : String)
    (hts : st.tokenState = some ts) (hexp : ts.expiresAt = none)
    (hstrat : cfg.authStrategy = .token) (hpre : cfg.preSuppliedToken = some t2)
    (h401 : (w.net st.nCalls).status = 401)
    (hprobe : (w.net (st.nCalls + 1)).ok = true) :
    npsApi w cfg path st =
      npsApiFinish w path (w.net (st.nCalls + 2))
        ⟨st.trace ++ [Ev.call (.api path) (some ts.token), Ev.cleared,
          Ev.call .version (some t2), Ev.call (.api path) (some t2)],
         st.nCalls + 3,
         some ⟨t2, w.now, parseJwtExp w.dec t2⟩⟩
    ∧ ((w.net (st.nCalls + 2)).ok = false →
        (npsApi w cfg path st).1 =
          .error (.api (w.net (st.nCalls + 2)).status
            (extractErrorMessage w (w.net (st.nCalls + 2)).body) path)) := by
  have hmain : npsApi w cfg path st =
      npsApiFinish w path (w.net (st.nCalls + 2))
        ⟨st.trace ++ [Ev.call (.api path) (some ts.token), Ev.cleared,
          Ev.call .version (some t2), Ev.call (.api path) (some t2)],
         st.nCalls + 3,
         some ⟨t2, w.now, parseJwtExp w.dec t2⟩⟩ := by
    simp [npsApi, getToken, expiringCheck, hts, hexp, doCall, h401, clearToken,
      authenticate, hstrat, authenticateWithToken, hpre, hprobe, setTokenState]
  refine ⟨hmain, ?_⟩
  intro hnok
  rw [hmain]
  simp [npsApiFinish, hnok]

/-- Shared fixture: a server answering the first request 401, the second (the
token-validation probe) 200, and everything after 403. -/
def w401Then403 : World :=
  ⟨fun n => if n = 0 then ⟨401, "expired"⟩
    else if n = 1 then ⟨200, "4.2"⟩
    else ⟨403, "forbidden"⟩, none, fun _ => none, fun _ => none, 0⟩

/-- Witness for C8_api_401_retry: the 403 of the retried request is propagated as
NpsApiError 403 with the raw body as message. -/
theorem C8_witness :
    (npsApi w401Then403 cfgTokenStrat "/api/v1/Resource"
        ⟨[], 0, some ⟨"old", 0, none⟩⟩).1 =
      .error (.api 403 (Json.str "forbidden") "/api/v1/Resource") := by
  have h := C8_api_401_retry w401Then403 cfgTokenStrat "/api/v1/Resource"
    ⟨[], 0, some ⟨"old", 0, none⟩⟩ ⟨"old", 0, none⟩ "T"
    rfl rfl rfl rfl rfl rfl
  exact h.2 rfl

-- ─── Claim C9 ───────────────────────────────────────────────────────────────

/-- signinBody leaves the cached TokenState untouched. -/
theorem signinBody_tokenState (w : World) (cfg : NpsConfig) (pw : String)
    (st : St) : ((signinBody w cfg pw st).2).tokenState = st.tokenState := by
  obtain ⟨k, evs, heq, _, _⟩ := retryGo_spec w .signinBody none 3 0 st (by omega)
  by_cases hok : (w.net (st.nCalls + k)).ok <;>
    simp [signinBody, npsRequestWithRetry, heq, hok]

/-- signin2fa leaves the cached TokenState untouched. -/
theorem signin2fa_tokenState (w : World) (cfg : NpsConfig) (t c : String)
    (st : St) : ((signin2fa w cfg t c st).2).tokenState = st.tokenState := by
  obtain ⟨k, evs, heq, _, _⟩ := retryGo_spec w .signin2fa (some t) 3 0 st (by omega)
  by_cases hok : (w.net (st.nCalls + k)).ok <;>
    simp [signin2fa, npsRequestWithRetry, heq, hok]

/-- The strategy dispatch of authenticate leaves the cached TokenState
untouched (the cache is only written by authenticate itself afterwards). -/
theorem innerFlow_tokenState (w : World) (cfg : NpsConfig) (st : St) :
    ((match cfg.authStrategy with
      | .token => authenticateWithToken w cfg st
      | .apikey => authenticateWithApiKey w cfg st
      | .interactivePrompt => authenticateInteractivePrompt w cfg st
      | .interactive => authenticateInteractive w cfg st).2).tokenState
      = st.tokenState := by
  cases cfg.authStrategy with
  | token =>
    by_cases hok : (w.net st.nCalls).ok <;>
      simp [authenticateWithToken, doCall, hok]
  | apikey =>
    simpa [authenticateWithApiKey] using
      signinBody_tokenState w cfg (cfg.apiKey.getD "") st
  | interactivePrompt =>
    unfold authenticateInteractivePrompt
    rcases h1 : signinBody w cfg cfg.password st with ⟨r1, st1⟩
    have e1 : st1.tokenState = st.tokenState := by
      have h := signinBody_tokenState w cfg cfg.password st
      rw [h1] at h
      exact h
    cases r1 with
    | error e => simpa using e1
    | ok tok1 =>
      rcases h2 : promptMfaCode w st1 with ⟨r2, st2⟩
      have e2 : st2.tokenState = st1.tokenState := by
        have h : ((promptMfaCode w st1).2).tokenState = st1.tokenState := by
          cases htty : w.tty <;> simp [promptMfaCode, htty]
        rw [h2] at h
        exact h
      cases r2 with
      | error e => simp [h2, e2, e1]
      | ok code =>
        have e3 := signin2fa_tokenState w cfg tok1 code st2
        simp [h2, e3, e2, e1]
  | interactive =>
    unfold authenticateInteractive
    rcases h1 : signinBody w cfg cfg.password st with ⟨r1, st1⟩
    have e1 : st1.tokenState = st.tokenState := by
      have h := signinBody_tokenState w cfg cfg.password st
      rw [h1] at h
      exact h
    cases r1 with
    | error e => simpa using e1
    | ok tok1 =>
      have e3 := signin2fa_tokenState w cfg tok1 (jsOr cfg.mfaCode "000000") st1
      simp [e3, e1]

/-- On success, authenticate stores exactly the returned token and its
derived expiry. -/
theorem authenticate_ok_state (w : World) (cfg : NpsConfig) (st : St)
    (tok : String) (st1 : St) (h : authenticate w cfg st = (.ok tok, st1)) :
    st1.tokenState = some ⟨tok, w.now, parseJwtExp w.dec tok⟩ := by
  unfold authenticate at h
  rcases hres : (match cfg.authStrategy with
    | .token => authenticateWithToken w cfg st
    | .apikey => authenticateWithApiKey w cfg st
    | .interactivePrompt => authenticateInteractivePrompt w cfg st
    | .interactive => authenticateInteractive w cfg st) with ⟨r, stf⟩
  rw [hres] at h
  cases r with
  | error e => simp at h
  | ok t =>
    simp only [Prod.mk.injEq, Except.ok.injEq] at h
    obtain ⟨hrt, hst⟩ := h
    subst hrt
    rw [← hst]
    simp [setTokenState]

/-- authenticate either preserves the cached TokenState (on failure) or
replaces it with a freshly derived one; it never clears it. -/
theorem authenticate_state_pres (w : World) (cfg : NpsConfig) (st : St)
    (res : Except AuthError String) (st1 : St)
    (h : authenticate w cfg st = (res, st1)) :
    st1.tokenState = st.tokenState ∨
    ∃ t, st1.tokenState = some ⟨t, w.now, parseJwtExp w.dec t⟩ := by
  unfold authenticate at h
  rcases hres : (match cfg.authStrategy with
    | .token => authenticateWithToken w cfg st
    | .apikey => authenticateWithApiKey w cfg st
    | .interactivePrompt => authenticateInteractivePrompt w cfg st
    | .interactive => authenticateInteractive w cfg st) with ⟨r, stf⟩
  have hpres : stf.tokenState = st.tokenState := by
    have h2 := innerFlow_tokenState w cfg st
    rw [hres] at h2
    exact h2
  rw [hres] at h
  cases r with
  | error e =>
    left
    simp only [Prod.mk.injEq] at h
    rw [← h.2]
    exact hpres
  | ok t =>
    right
    refine ⟨t, ?_⟩
    simp only [Prod.mk.injEq] at h
    rw [← h.2]
    simp [setTokenState]

/-- refreshToken never clears the cached TokenState either: it preserves it
or (via its internal re-authentication) replaces it with a fresh one. -/
theorem refreshToken_state_pres (w : World) (cfg : NpsConfig) (ct : String)
    (st : St) (res : Except AuthError String) (st1 : St)
    (h : refreshToken w cfg ct st = (res, st1)) :
    st1.tokenState = st.tokenState ∨
    ∃ t, st1.tokenState = some ⟨t, w.now, parseJwtExp w.dec t⟩ := by
  obtain ⟨k, evs, heq, _, _⟩ := retryGo_spec w .userToken (some ct) 3 0 st (by omega)
  have hrt : refreshToken w cfg ct st =
      if (w.net (st.nCalls + k)).ok = true
      then (.ok (stripTokenQuotes (w.net (st.nCalls + k)).body),
        ⟨st.trace ++ evs, st.nCalls + k + 1, st.tokenState⟩)
      else if cfg.authStrategy = .token
      then (.error .refreshUnrecoverable,
        ⟨st.trace ++ evs, st.nCalls + k + 1, st.tokenState⟩)
      else authenticate w cfg ⟨st.trace ++ evs, st.nCalls + k + 1, st.tokenState⟩ := by
    by_cases hok : (w.net (st.nCalls + k)).ok = true
    · simp [refreshToken, npsRequestWithRetry, heq, hok]
    · by_cases hcs : cfg.authStrategy = .token <;>
        simp [refreshToken, npsRequestWithRetry, heq, hok, hcs]
  rw [hrt] at h
  by_cases hok : (w.net (st.nCalls + k)).ok = true
  · rw [if_pos hok] at h
    injection h with h1 h2
    subst h2
    left
    rfl
  · rw [if_neg hok] at h
    by_cases hcs : cfg.authStrategy = .token
    · rw [if_pos hcs] at h
      injection h with h1 h2
      subst h2
      left
      rfl
    · rw [if_neg hcs] at h
      rcases authenticate_state_pres w cfg
        ⟨st.trace ++ evs, st.nCalls + k + 1, st.tokenState⟩ res st1 h with h1 | h1
      · left
        simpa using h1
      · right
        exact h1

/-- getToken on a state with a cached TokenState, unfolded. -/
theorem getToken_cached (w : World) (cfg : NpsConfig) (st : St)
    (ts : TokenState) (hts : st.tokenState = some ts) :
    getToken w cfg st =
      if expiringCheck w ts then
        match refreshToken w cfg ts.token st with
        | (.ok newToken, st1) => (.ok newToken, setTokenState w newToken st1)
        | (.error err, st1) =>
          if cfg.authStrategy = .token then (.error err, st1)
          else authenticate w cfg st1
      else (.ok ts.token, st) := by
  rw [getToken, hts]

/-- Claim C9 (confirmed, as an inductive invariant): assuming every cached
TokenState carries the expiry decoded from its own token (true of every state
this subsystem produces), a successful authenticate or getToken leaves a
non-null TokenState whose token field equals the returned string and whose
expiresAt equals the decoded exp claim of that string in milliseconds (absent
when the string is not a parseable JWT or lacks a numeric exp); neither
operation ever sets a present state back to absent — clearToken alone does. -/
theorem C9_token_state_invariant (w : World) (cfg : NpsConfig) (st : St)
    (hInv : TokenInv w st) :
    (∀ tok st1, authenticate w cfg st = (.ok tok, st1) →
      ∃ ts, st1.tokenState = some ts ∧ ts.token = tok ∧
        ts.expiresAt = parseJwtExp w.dec tok)
    ∧ (∀ tok st1, getToken w cfg st = (.ok tok, st1) →
      ∃ ts, st1.tokenState = some ts ∧ ts.token = tok ∧
        ts.expiresAt = parseJwtExp w.dec tok)
    ∧ (∀ res st1, authenticate w cfg st = (res, st1) →
        st.tokenState.isSome = true → st1.tokenState.isSome = true)
    ∧ (∀ res st1, getToken w cfg st = (res, st1) →
        st.tokenState.isSome = true → st1.tokenState.isSome = true)
    ∧ (clearToken st).tokenState = none := by
  refine ⟨?_, ?_, ?_, ?_, rfl⟩
  · intro tok st1 h
    exact ⟨⟨tok, w.now, parseJwtExp w.dec tok⟩,
      authenticate_ok_state w cfg st tok st1 h, rfl, rfl⟩
  · intro tok st1 h
    cases hts : st.tokenState with
    | none =>
      rw [getToken, hts] at h
      exact ⟨⟨tok, w.now, parseJwtExp w.dec tok⟩,
        authenticate_ok_state w cfg st tok st1 h, rfl, rfl⟩
    | some ts =>
      rw [getToken_cached w cfg st ts hts] at h
      by_cases hexpiring : expiringCheck w ts = true
      · rw [if_pos hexpiring] at h
        rcases hr : refreshToken w cfg ts.token st with ⟨rr, str⟩
        rw [hr] at h
        cases rr with
        | ok newToken =>
          simp only [Prod.mk.injEq, Except.ok.injEq] at h
          obtain ⟨h1, h2⟩ := h
          rw [← h2]
          exact ⟨⟨newToken, w.now, parseJwtExp w.dec newToken⟩,
            by simp [setTokenState], h1, by rw [h1]⟩
        | error err =>
          by_cases hcs : cfg.authStrategy = .token
          · simp [hcs] at h
          · simp only [hcs, if_false, ite_false, if_neg hcs] at h
            exact ⟨⟨tok, w.now, parseJwtExp w.dec tok⟩,
              authenticate_ok_state w cfg str tok st1 h, rfl, rfl⟩
      · rw [if_neg hexpiring] at h
        simp only [Prod.mk.injEq, Except.ok.injEq] at h
        obtain ⟨h1, h2⟩ := h
        subst h1
        rw [← h2]
        exact ⟨ts, hts, rfl, hInv ts hts⟩
  · intro res st1 h hsome
    rcases authenticate_state_pres w cfg st res st1 h with h1 | ⟨t, h1⟩
    · rw [h1]
      exact hsome
    · rw [h1]
      rfl
  · intro res st1 h hsome
    cases hts : st.tokenState with
    | none => rw [hts] at hsome; simp at hsome
    | some ts =>
      rw [getToken_cached w cfg st ts hts] at h
      by_cases hexpiring : expiringCheck w ts = true
      · rw [if_pos hexpiring] at h
        rcases hr : refreshToken w cfg ts.token st with ⟨rr, str⟩
        rw [hr] at h
        have hrpres := refreshToken_state_pres w cfg ts.token st rr str hr
        cases rr with
        | ok newToken =>
          simp only [Prod.mk.injEq] at h
          rw [← h.2]
          simp [setTokenState]
        | error err =>
          by_cases hcs : cfg.authStrategy = .token
          · simp only [hcs, if_true, ite_true, if_pos rfl, Prod.mk.injEq] at h
            rw [← h.2]
            rcases hrpres with h1 | ⟨t, h1⟩
            · rw [h1]
              exact hsome
            · rw [h1]
              rfl
          · simp only [hcs, if_false, ite_false, if_neg hcs] at h
            rcases authenticate_state_pres w cfg str res st1 h with h1 | ⟨t, h1⟩
            · rw [h1]
              rcases hrpres with h2 | ⟨t2, h2⟩
              · rw [h2]
                exact hsome
              · rw [h2]
                rfl
            · rw [h1]
              rfl
      · rw [if_neg hexpiring] at h
        simp only [Prod.mk.injEq] at h
        rw [← h.2, hts]
        rfl

/-- Shared fixture: a server answering every request 200 with a version body
(enough for the token-strategy probe). -/
def wProbeOk : World :=
  ⟨fun _ => ⟨200, "4.2"⟩, none, fun _ => none, fun _ => none, 0⟩

/-- Witness for C9_token_state_invariant: a cold getToken under the token
strategy returns "T" and leaves a cache entry for "T" with its (absent)
decoded expiry. -/
theorem C9_witness :
    ∃ ts, (⟨[Ev.call .version (some "T")], 1, some ⟨"T", 0, none⟩⟩ : St).tokenState
        = some ts ∧
      ts.token = "T" ∧ ts.expiresAt = parseJwtExp wProbeOk.dec "T" :=
  (C9_token_state_invariant wProbeOk cfgTokenStrat st0
      (fun ts hts => by simp [st0] at hts)).2.1
    "T" ⟨[Ev.call .version (some "T")], 1, some ⟨"T", 0, none⟩⟩ rfl

end Nps
